import Mathlib

/-!
Verification of the ConsoleBatch pipeline engine of scantailor-experimental
(files `ConsoleBatch_ubuntu_arm64.cpp`, the baseline, and
`ConsoleBatch_ubuntu_arm64_optimized.cpp`, the optimized variant).

The development embeds the two `ConsoleBatch::createCompositeTask`
implementations, the two `ConsoleBatch::process` loops, the two
project-file constructors, the progress-computation divisors of the
optimized `process`, and (modelled from the spec, since `StageSequence`
and the per-stage `Task` classes are not part of the given sources) the
forward execution of a composite chain and the relinking pass over a
stage's settings store.
-/

namespace ScanTailor

/-- Stage index of the fix-orientation filter in the `StageSequence`.
The optimized source hard-codes the indices 0..5 in `createCompositeTask`
(comments "Fix orientation stage" at `>= 0` through "Output stage" at
`>= 5`) and `setupStages` fetches the filters with `filterAt(0)` ..
`filterAt(5)` in that order; the baseline reads the same values from
`StageSequence::*FilterIdx()`. -/
def fixOrientationFilterIdx : Int := 0

/-- Stage index of the page-split filter. -/
def pageSplitFilterIdx : Int := 1

/-- Stage index of the deskew filter. -/
def deskewFilterIdx : Int := 2

/-- Stage index of the select-content filter. -/
def selectContentFilterIdx : Int := 3

/-- Stage index of the page-layout filter. -/
def pageLayoutFilterIdx : Int := 4

/-- Stage index of the output filter, the last stage of the pipeline. -/
def outputFilterIdx : Int := 5

/-- A per-stage unit of work, as produced by `Filter::createTask`.
`nullTask` stands for a null `IntrusivePtr` (no task).  A real task
records the stage index it belongs to, the `batch` flag and the `debug`
flag it was created with (`none` when the stage's `createTask` signature
takes no debug argument, as for the baseline fix-orientation stage), and
the continuation task it will run after itself (possibly null). -/
inductive UnitOfWork : Type where
  | nullTask : UnitOfWork
  | task (stage : Nat) (batchFlag : Bool) (debugFlag : Option Bool)
      (cont : UnitOfWork) : UnitOfWork
deriving DecidableEq, Repr

/-- The value returned by `createCompositeTask`: a `LoadFileTask` that
loads the page's image and then hands it to the fix-orientation task
(possibly null) that roots the chain. -/
structure CompositeTask : Type where
  fixOrientationTask : UnitOfWork
deriving DecidableEq, Repr

/-- Baseline `ConsoleBatch::createCompositeTask`
(`ConsoleBatch_ubuntu_arm64.cpp`, lines 167-239), transliterated.  The
member fields `batch` and `debug` enter as parameters (`batch` is
initialized to `true` by every constructor of the class and never
changed).  The function first clears `debug` whenever `batch` is set,
then walks the stages from the output filter down to fix-orientation:
each guard `last_filter_idx >= stageIdx` creates that stage's task with
the previously built task as its continuation and clears `debug`.  The
trailing `assert(fix_orientation_task)` is modelled as a fatal error
(`Except.error`) when the root task is still null. -/
def createCompositeTaskBaseline (batch debug0 : Bool) (lastFilterIdx : Int) :
    Except String CompositeTask :=
  let debug := if batch then false else debug0
  let outputTask :=
    if lastFilterIdx ≥ outputFilterIdx then
      UnitOfWork.task 5 batch (some debug) .nullTask
    else .nullTask
  let debug := if lastFilterIdx ≥ outputFilterIdx then false else debug
  let pageLayoutTask :=
    if lastFilterIdx ≥ pageLayoutFilterIdx then
      UnitOfWork.task 4 batch (some debug) outputTask
    else .nullTask
  let debug := if lastFilterIdx ≥ pageLayoutFilterIdx then false else debug
  let selectContentTask :=
    if lastFilterIdx ≥ selectContentFilterIdx then
      UnitOfWork.task 3 batch (some debug) pageLayoutTask
    else .nullTask
  let debug := if lastFilterIdx ≥ selectContentFilterIdx then false else debug
  let deskewTask :=
    if lastFilterIdx ≥ deskewFilterIdx then
      UnitOfWork.task 2 batch (some debug) selectContentTask
    else .nullTask
  let debug := if lastFilterIdx ≥ deskewFilterIdx then false else debug
  let pageSplitTask :=
    if lastFilterIdx ≥ pageSplitFilterIdx then
      UnitOfWork.task 1 batch (some debug) deskewTask
    else .nullTask
  let _debug := if lastFilterIdx ≥ pageSplitFilterIdx then false else debug
  let fixOrientationTask :=
    if lastFilterIdx ≥ fixOrientationFilterIdx then
      UnitOfWork.task 0 batch none pageSplitTask
    else .nullTask
  match fixOrientationTask with
  | .nullTask => .error "assertion failed: fix_orientation_task"
  | t => .ok { fixOrientationTask := t }

/-- Optimized `ConsoleBatch::createCompositeTask`
(`ConsoleBatch_ubuntu_arm64_optimized.cpp`, lines 291-376),
transliterated.  `batch` and `debug` are genuine parameters here and are
passed unchanged to every stage's `createTask`.  Each `assert(task)`
sits inside the guard that has just created that task with `new`, so it
can never fire; the function always returns normally, wrapping the
(possibly null) fix-orientation task in a `LoadFileTask`. -/
def createCompositeTaskOpt (batch debug : Bool) (lastFilterIdx : Int) :
    CompositeTask :=
  let outputTask :=
    if lastFilterIdx ≥ 5 then UnitOfWork.task 5 batch (some debug) .nullTask
    else .nullTask
  let pageLayoutTask :=
    if lastFilterIdx ≥ 4 then UnitOfWork.task 4 batch (some debug) outputTask
    else .nullTask
  let selectContentTask :=
    if lastFilterIdx ≥ 3 then
      UnitOfWork.task 3 batch (some debug) pageLayoutTask
    else .nullTask
  let deskewTask :=
    if lastFilterIdx ≥ 2 then
      UnitOfWork.task 2 batch (some debug) selectContentTask
    else .nullTask
  let pageSplitTask :=
    if lastFilterIdx ≥ 1 then UnitOfWork.task 1 batch (some debug) deskewTask
    else .nullTask
  let fixOrientationTask :=
    if lastFilterIdx ≥ 0 then
      UnitOfWork.task 0 batch (some debug) pageSplitTask
    else .nullTask
  { fixOrientationTask := fixOrientationTask }

/-- Modelled from the spec: the stages a chain executes, in execution
order.  Spec 4.3: a unit of work for stage i, when run, performs its own
stage's computation and then hands its output to its continuation and
runs it; a null continuation ends the chain.  The per-stage `Task`
classes are not part of the given sources. -/
def execOrder : UnitOfWork → List Nat
  | .nullTask => []
  | .task i _ _ c => i :: execOrder c

/-- Modelled from the spec: forward execution of a chain with an
abstract per-stage computation `step` on an abstract artifact type.
The unit for stage i transforms the current artifact with `step i` and
passes the result to its continuation; the last (deepest) unit's output
is the chain's final result. -/
def runUnit (step : Nat → Nat → Nat) (x : Nat) : UnitOfWork → Nat
  | .nullTask => x
  | .task i _ _ c => runUnit step (step i x) c

/-- The debug flags handed to the stages of a chain, in execution order
(`none` where the stage's `createTask` takes no debug argument). -/
def debugFlags : UnitOfWork → List (Option Bool)
  | .nullTask => []
  | .task _ _ d c => d :: debugFlags c

/-- True when no stage of the chain was handed `debugFlag = true`. -/
def noTrueFlag : UnitOfWork → Bool
  | .nullTask => true
  | .task _ _ d c => (decide (d ≠ some true)) && noTrueFlag c

/-- True when every stage of the chain was handed exactly the debug
value `v`. -/
def allFlagsEq (v : Option Bool) : UnitOfWork → Bool
  | .nullTask => true
  | .task _ _ d c => (decide (d = v)) && allFlagsEq v c

/-- The root unit of work of a build result (`nullTask` when the build
failed fatally). -/
def rootOrNull : Except String CompositeTask → UnitOfWork
  | .ok t => t.fixOrientationTask
  | .error _ => .nullTask

/-- For `last_filter_idx ≥ 5` every stage guard of the baseline builder
is taken, so the build coincides with the one at index 5. -/
theorem createCompositeTaskBaseline_ge5 (b d : Bool) (k : Int) (h : k ≥ 5) :
    createCompositeTaskBaseline b d k = createCompositeTaskBaseline b d 5 := by
  simp [createCompositeTaskBaseline, fixOrientationFilterIdx,
    pageSplitFilterIdx, deskewFilterIdx, selectContentFilterIdx,
    pageLayoutFilterIdx, outputFilterIdx,
    h, (by omega : k ≥ (4 : Int)), (by omega : k ≥ (3 : Int)),
    (by omega : k ≥ (2 : Int)), (by omega : k ≥ (1 : Int)),
    (by omega : k ≥ (0 : Int))]

/-- For `last_filter_idx ≥ 5` every stage guard of the optimized builder
is taken, so the build coincides with the one at index 5. -/
theorem createCompositeTaskOpt_ge5 (b d : Bool) (k : Int) (h : k ≥ 5) :
    createCompositeTaskOpt b d k = createCompositeTaskOpt b d 5 := by
  simp [createCompositeTaskOpt,
    h, (by omega : k ≥ (4 : Int)), (by omega : k ≥ (3 : Int)),
    (by omega : k ≥ (2 : Int)), (by omega : k ≥ (1 : Int)),
    (by omega : k ≥ (0 : Int))]

/-- Result of one page's composite task in the optimized `process` loop
(lines 399-441): the `FilterResult` is OK, the `FilterResult` reports a
failure, or the page's work threw an exception that the per-page
`catch` blocks swallow. -/
inductive PageOutcome : Type where
  | succeeded : PageOutcome
  | failed : PageOutcome
  | raised : PageOutcome
deriving DecidableEq, Repr

/-- Whether a page's outcome counts as a success (increments
`processed`). -/
def PageOutcome.isOk : PageOutcome → Bool
  | .succeeded => true
  | .failed => false
  | .raised => false

/-- The observable result of the optimized `ConsoleBatch::process`:
the pages the loop iterated over, the printed summary counts, and
whether the run ended without throwing "Some pages failed to
process". -/
structure BatchReport (PageT : Type) : Type where
  attempted : List PageT
  totalPages : Nat
  processed : Nat
  failedCount : Nat
  batchOk : Bool
deriving Repr

/-- Optimized `ConsoleBatch::process`
(`ConsoleBatch_ubuntu_arm64_optimized.cpp`, lines 379-457),
transliterated over an abstract page type.  The outcome of one page's
composite task (image work is external) enters as the function
`outcome`.  The loop visits every page of the snapshot in order; a page
increments `processed` only when its result `isOk`; a failed result or
a caught exception leaves `processed` unchanged and the loop continues.
The summary prints `Failed: total - processed` and the run throws at
the end iff `processed < total`.  (The returned `LoadFileTask` pointer
is never null, so the `if (task)` check always takes its then-branch.) -/
def processOpt {PageT : Type} (pages : List PageT)
    (outcome : PageT → PageOutcome) : BatchReport PageT :=
  let r := pages.foldl
    (fun acc p =>
      (match outcome p with
       | .succeeded => acc.1 + 1
       | .failed => acc.1
       | .raised => acc.1,
       acc.2 ++ [p]))
    ((0 : Nat), ([] : List PageT))
  { attempted := r.2
    totalPages := pages.length
    processed := r.1
    failedCount := pages.length - r.1
    batchOk := r.1 == pages.length }

/-- The fold of the optimized `process` loop counts exactly the pages
whose outcome is OK and visits every page in order. -/
theorem processOpt_foldl {PageT : Type} (outcome : PageT → PageOutcome)
    (pages : List PageT) (n : Nat) (l : List PageT) :
    pages.foldl
      (fun acc p =>
        (match outcome p with
         | .succeeded => acc.1 + 1
         | .failed => acc.1
         | .raised => acc.1,
         acc.2 ++ [p]))
      (n, l) =
    (n + pages.countP (fun p => (outcome p).isOk), l ++ pages) := by
  induction pages generalizing n l with
  | nil => simp
  | cons p rest ih =>
    rcases hp : outcome p <;>
      simp [List.foldl_cons, List.countP_cons, hp, PageOutcome.isOk, ih,
        Nat.add_assoc, Nat.add_comm, Nat.add_left_comm]

/-- Counting the complement of a Bool predicate over a list. -/
theorem length_sub_countP {α : Type} (q : α → Bool) (l : List α) :
    l.countP (fun a => !(q a)) = l.length - l.countP q := by
  induction l with
  | nil => simp
  | cons a t ih =>
    have hle := List.countP_le_length (l := t) (p := q)
    cases h : q a <;> simp [List.countP_cons, h, ih]
    all_goals omega

/-- Baseline `ConsoleBatch::process`
(`ConsoleBatch_ubuntu_arm64.cpp`, lines 241-264), abstracted to the
control flow relevant here: the loop builds a composite task per page
and runs it, with no per-page try/catch around the build, so a fatal
build error (the `assert`) aborts the whole run at the first page
instead of being recorded as that page's failure. -/
def processBaseline {PageT : Type} (b d : Bool) (lastFilterIdx : Int) :
    List PageT → Except String Unit
  | [] => .ok ()
  | _p :: rest =>
    match createCompositeTaskBaseline b d lastFilterIdx with
    | .error e => .error e
    | .ok _t => processBaseline b d lastFilterIdx rest

/-- Modelled from the spec (execution semantics of the chains; the
per-stage `Task` classes are not in the given sources): the interleaved
trace of the optimized `process` loop.  The loop body runs each page's
composite task synchronously (`task->process(...)`) before the next
iteration begins, each task built with `last_filter_idx = 5`,
`batch = true` and the member debug flag; running a chain executes its
stages in forward continuation order (`execOrder`). -/
def processTrace {PageT : Type} (mDebug : Bool) (pages : List PageT) :
    List (PageT × Nat) :=
  pages.flatMap fun p =>
    (execOrder (createCompositeTaskOpt true mDebug 5).fixOrientationTask).map
      fun s => (p, s)

/-- The divisor `std::max(1, processed)` used by the optimized
`process` for the estimated-total-time, remaining-time and
average-time-per-page computations (lines 421-431 and 443-444). -/
def progressDivisor (processed : Nat) : Nat := max 1 processed

/-- `qint64 estimated_total = (elapsed * total) / std::max(1, processed)`. -/
def estimatedTotalTime (elapsed : Int) (total processed : Nat) : Int :=
  (elapsed * total) / (progressDivisor processed : Int)

/-- `qint64 remaining = estimated_total - elapsed`. -/
def remainingTime (elapsed : Int) (total processed : Nat) : Int :=
  estimatedTotalTime elapsed total processed - elapsed

/-- The inputs to the project-file constructors that the given sources
branch on: whether `QFile::open` succeeds, whether
`QDomDocument::setContent` succeeds, the output directory the reader
returns, and whether the reader yields a non-null `ProjectPages`
(checked only by the optimized constructor). -/
structure ProjectFileEnv : Type where
  canOpen : Bool
  wellFormed : Bool
  outputDirectory : String
  pagesLoad : Bool
deriving DecidableEq, Repr

/-- Baseline `ConsoleBatch::ConsoleBatch(QString)`
(`ConsoleBatch_ubuntu_arm64.cpp`, lines 114-164), reduced to its fatal
checks in source order: unopenable file, malformed XML document, then
(after reading the project and relinking) an empty output directory.
Each check throws `std::runtime_error` before any page is processed. -/
def consoleBatchFromProjectBaseline (f : ProjectFileEnv) :
    Except String Unit :=
  if !f.canOpen then .error "Unable to open the project file."
  else if !f.wellFormed then .error "The project file is broken."
  else if f.outputDirectory.isEmpty then .error "Output directory is not set."
  else .ok ()

/-- Optimized `ConsoleBatch::ConsoleBatch(QString const&)`
(`ConsoleBatch_ubuntu_arm64_optimized.cpp`, lines 113-167), reduced to
its fatal checks in source order: unopenable file, malformed XML
document, then null `ProjectPages` after `readProject`.  The output
directory read from the project file is used as-is; the constructor
contains no emptiness check for it. -/
def consoleBatchFromProjectOpt (f : ProjectFileEnv) : Except String Unit :=
  if !f.canOpen then .error "Unable to open project file for reading"
  else if !f.wellFormed then .error "Project file is not a valid XML document"
  else if !f.pagesLoad then .error "Failed to load project pages"
  else .ok ()

/-- Source-image identity: file path plus index within a multi-image
file (spec section 3). -/
structure ImageId : Type where
  filePath : String
  page : Nat
deriving DecidableEq, Repr

/-- Sub-page selector of a logical page (spec section 3). -/
inductive SubPage : Type where
  | whole : SubPage
  | left : SubPage
  | right : SubPage
deriving DecidableEq, Repr

/-- Logical page identity: image identity plus sub-page selector;
equality is componentwise (spec section 3). -/
structure PageId : Type where
  imageId : ImageId
  subPage : SubPage
deriving DecidableEq, Repr

/-- Modelled from the spec: relinking rewrites an `ImageId`'s source
path (the relinker is a path substitution) and nothing else.
`StageSequence::performRelinking` and the relinker classes are not in
the given sources; the baseline constructor calls
`m_ptrStages->performRelinking(reader.createRelinker())`. -/
def relinkImageId (f : String → String) (im : ImageId) : ImageId :=
  { im with filePath := f im.filePath }

/-- Modelled from the spec: relinking a `PageId` rewrites the path of
its `ImageId` and preserves the sub-page selector. -/
def relinkPageId (f : String → String) (p : PageId) : PageId :=
  { p with imageId := relinkImageId f p.imageId }

/-- Lookup of a page's record in a stage's settings store (first entry
whose key equals the `PageId`). -/
def getSettings {α : Type} (s : List (PageId × α)) (k : PageId) : Option α :=
  match s with
  | [] => none
  | e :: rest => if e.1 = k then some e.2 else getSettings rest k

/-- Modelled from the spec: the relink pass rewrites the `ImageId`
source path inside every key of a stage's settings store, leaving every
stored `StageSettings` value untouched. -/
def performRelinking {α : Type} (f : String → String)
    (s : List (PageId × α)) : List (PageId × α) :=
  s.map (fun e => (relinkPageId f e.1, e.2))

/-- C1: for every lastStageIndex k in [0,5], `createCompositeTask`
builds the chain by the backward walk (the highest-index stage's task
gets a null continuation, each lower stage wraps the previously built
task), and the built composite — in both the baseline and the optimized
implementation — executes exactly stages 0..k, in forward order, with
stage k's output as the chain's final result; stages above k never
appear in the execution. -/
theorem c1_chain_runs_exactly_stages_zero_to_k (b d : Bool) (k : Int)
    (step : Nat → Nat → Nat) (x : Nat) (h0 : 0 ≤ k) (h5 : k ≤ 5) :
    ∃ t, createCompositeTaskBaseline b d k = .ok t ∧
      execOrder t.fixOrientationTask = List.range (k.toNat + 1) ∧
      runUnit step x t.fixOrientationTask =
        (List.range (k.toNat + 1)).foldl (fun a i => step i a) x ∧
      execOrder (createCompositeTaskOpt b d k).fixOrientationTask =
        List.range (k.toNat + 1) ∧
      runUnit step x (createCompositeTaskOpt b d k).fixOrientationTask =
        (List.range (k.toNat + 1)).foldl (fun a i => step i a) x ∧
      ∀ j, k.toNat < j → j ∉ execOrder t.fixOrientationTask := by
  interval_cases k <;>
    exact ⟨_, rfl, rfl, rfl, rfl, rfl, by
      intro j hj hmem
      simp [execOrder] at hmem
      omega⟩

/-- Witness for C1 at lastStageIndex 3 with a concrete per-stage
computation. -/
theorem c1_chain_runs_exactly_stages_zero_to_k_witness :
    ∃ t, createCompositeTaskBaseline true false 3 = .ok t ∧
      execOrder t.fixOrientationTask = List.range ((3 : Int).toNat + 1) ∧
      runUnit (fun i a => 10 * a + i + 1) 0 t.fixOrientationTask =
        (List.range ((3 : Int).toNat + 1)).foldl
          (fun a i => (fun i a => 10 * a + i + 1) i a) 0 ∧
      execOrder (createCompositeTaskOpt true false 3).fixOrientationTask =
        List.range ((3 : Int).toNat + 1) ∧
      runUnit (fun i a => 10 * a + i + 1) 0
          (createCompositeTaskOpt true false 3).fixOrientationTask =
        (List.range ((3 : Int).toNat + 1)).foldl
          (fun a i => (fun i a => 10 * a + i + 1) i a) 0 ∧
      ∀ j, (3 : Int).toNat < j →
        j ∉ execOrder t.fixOrientationTask :=
  c1_chain_runs_exactly_stages_zero_to_k true false 3
    (fun i a => 10 * a + i + 1) 0 (by decide) (by decide)

/-- C2 counterexample: the optimized `createCompositeTask` passes its
`debug` parameter unchanged to every stage, so with `debug = true` and
a full chain every stage — not only the first executed one — receives
`debugFlag = true`; the stages after the first executed one do not all
receive `false`, refuting the claim at this concrete input. -/
theorem c2_debug_flag_counterexample :
    debugFlags (createCompositeTaskOpt true true 5).fixOrientationTask =
      [some true, some true, some true, some true, some true, some true] ∧
    ¬ ∀ fl ∈ (debugFlags
        (createCompositeTaskOpt true true 5).fixOrientationTask).tail,
      fl = some false :=
  ⟨rfl, by decide⟩

/-- C2 amended: in the baseline implementation (where the member
`batch` is always true, so `debug` is cleared before the first stage is
built and again after every stage) no stage of any chain receives
`debugFlag = true` — in particular at most the first executed stage
does; in the optimized implementation every stage of the chain receives
exactly the caller's `debug` value. -/
theorem c2_debug_flag_amended (d dbg b : Bool) (k : Int) :
    noTrueFlag (rootOrNull (createCompositeTaskBaseline true d k)) = true ∧
    allFlagsEq (some dbg)
      ((createCompositeTaskOpt b dbg k).fixOrientationTask) = true := by
  constructor
  · by_cases h0 : k ≥ (0 : Int) <;> by_cases h1 : k ≥ (1 : Int) <;>
      by_cases h2 : k ≥ (2 : Int) <;> by_cases h3 : k ≥ (3 : Int) <;>
      by_cases h4 : k ≥ (4 : Int) <;> by_cases h5 : k ≥ (5 : Int) <;>
      simp [createCompositeTaskBaseline, rootOrNull, noTrueFlag,
        fixOrientationFilterIdx, pageSplitFilterIdx, deskewFilterIdx,
        selectContentFilterIdx, pageLayoutFilterIdx, outputFilterIdx,
        h0, h1, h2, h3, h4, h5]
  · by_cases h0 : k ≥ (0 : Int) <;> by_cases h1 : k ≥ (1 : Int) <;>
      by_cases h2 : k ≥ (2 : Int) <;> by_cases h3 : k ≥ (3 : Int) <;>
      by_cases h4 : k ≥ (4 : Int) <;> by_cases h5 : k ≥ (5 : Int) <;>
      simp [createCompositeTaskOpt, allFlagsEq, h0, h1, h2, h3, h4, h5]

/-- C3: in the optimized `process` loop every page of the snapshot is
attempted regardless of the other pages' outcomes; a page whose unit of
work reports a failure or throws is recorded in the failed count (the
count equals the number of pages whose outcome is not OK) and does not
stop the loop. -/
theorem c3_page_failure_does_not_abort_batch {PageT : Type}
    (pages : List PageT) (outcome : PageT → PageOutcome) :
    (processOpt pages outcome).attempted = pages ∧
    (processOpt pages outcome).processed =
      pages.countP (fun p => (outcome p).isOk) ∧
    (processOpt pages outcome).failedCount =
      pages.countP (fun p => !(outcome p).isOk) := by
  unfold processOpt
  rw [processOpt_foldl]
  refine ⟨by simp, by simp, ?_⟩
  simp only [Nat.zero_add]
  rw [length_sub_countP]

/-- C4: after the optimized `process` has attempted every page, the run
ends without throwing iff every page succeeded; otherwise the reported
failure count equals total minus succeeded, and all pages were still
attempted. -/
theorem c4_exit_success_iff_all_pages_ok {PageT : Type}
    (pages : List PageT) (outcome : PageT → PageOutcome) :
    ((processOpt pages outcome).batchOk = true ↔
      ∀ p ∈ pages, (outcome p).isOk = true) ∧
    (processOpt pages outcome).failedCount =
      (processOpt pages outcome).totalPages -
        (processOpt pages outcome).processed ∧
    (processOpt pages outcome).attempted = pages := by
  unfold processOpt
  rw [processOpt_foldl]
  refine ⟨?_, by simp, by simp⟩
  simp only [Nat.zero_add, beq_iff_eq]
  exact List.countP_eq_length (l := pages) (p := fun p => (outcome p).isOk)

/-- C5 counterexample: in the optimized implementation the assertion on
the fix-orientation task sits inside the `last_filter_idx >= 0` guard,
so at lastStageIndex -1 the final backward step leaves the root task
null and `createCompositeTask` returns normally (a composite wrapping a
null task) instead of failing fatally, refuting the claim at this
concrete input. -/
theorem c5_null_root_counterexample :
    (createCompositeTaskOpt true false (-1)).fixOrientationTask =
      UnitOfWork.nullTask := rfl

/-- C5 amended: in the baseline implementation, whenever the final
backward step does not produce a non-null root task (exactly when
lastStageIndex < 0), `createCompositeTask` fails fatally with its
assertion and the baseline `process` run aborts at the first page with
that same fatal error — it is not recorded as a per-page failure; the
optimized implementation instead returns a composite with a null root
task in that case. -/
theorem c5_null_root_fatal_amended {PageT : Type} (b d : Bool) (k : Int)
    (hk : k < 0) (p : PageT) (ps : List PageT) :
    createCompositeTaskBaseline b d k =
      .error "assertion failed: fix_orientation_task" ∧
    processBaseline b d k (p :: ps) =
      .error "assertion failed: fix_orientation_task" ∧
    (createCompositeTaskOpt b d k).fixOrientationTask =
      UnitOfWork.nullTask := by
  have h0 : ¬ (k ≥ fixOrientationFilterIdx) := by
    simp only [fixOrientationFilterIdx]
    omega
  have h0x : ¬ (k ≥ (0 : Int)) := by omega
  refine ⟨?_, ?_, ?_⟩
  · simp [createCompositeTaskBaseline, h0]
  · simp [processBaseline, createCompositeTaskBaseline, h0]
  · simp [createCompositeTaskOpt, h0x]

/-- Witness for C5 amended at lastStageIndex -2 with a one-page batch. -/
theorem c5_null_root_fatal_amended_witness :
    createCompositeTaskBaseline true true (-2) =
      .error "assertion failed: fix_orientation_task" ∧
    processBaseline true true (-2) (() :: ([] : List Unit)) =
      .error "assertion failed: fix_orientation_task" ∧
    (createCompositeTaskOpt true true (-2)).fixOrientationTask =
      UnitOfWork.nullTask :=
  c5_null_root_fatal_amended true true (-2) (by decide) () []

/-- C6 counterexample: a project file that opens, parses and loads its
pages but has an empty output directory is accepted without error by
the optimized constructor, refuting the claim that a missing output
directory is fatal in every constructor. -/
theorem c6_missing_output_dir_counterexample :
    (ProjectFileEnv.mk true true "" true).outputDirectory.isEmpty = true ∧
    consoleBatchFromProjectOpt (ProjectFileEnv.mk true true "" true) =
      .ok () :=
  ⟨rfl, rfl⟩

/-- C6 amended: the baseline project-file constructor raises a fatal
configuration error, before any page is processed, exactly when the
file cannot be opened, the document is not well-formed, or the output
directory is missing; the optimized constructor raises exactly when the
file cannot be opened, the document is not well-formed, or the pages
fail to load — it does not check the output directory. -/
theorem c6_fatal_config_errors_amended (f : ProjectFileEnv) :
    ((∃ e, consoleBatchFromProjectBaseline f = .error e) ↔
      (f.canOpen = false ∨ f.wellFormed = false ∨
        f.outputDirectory.isEmpty = true)) ∧
    ((∃ e, consoleBatchFromProjectOpt f = .error e) ↔
      (f.canOpen = false ∨ f.wellFormed = false ∨
        f.pagesLoad = false)) := by
  obtain ⟨co, wf, od, pl⟩ := f
  cases co <;> cases wf <;> cases pl <;> cases h : od.isEmpty <;>
    simp [consoleBatchFromProjectBaseline, consoleBatchFromProjectOpt, h]

/-- C7: the optimized batch run is strictly sequential — its trace is
the concatenation, page by page in snapshot order, of each page's six
stages executed in forward order 0..5; each page contributes exactly
one contiguous block of six stage events. -/
theorem c7_sequential_per_page_trace {PageT : Type} (mDebug : Bool)
    (pages : List PageT) :
    execOrder (createCompositeTaskOpt true mDebug 5).fixOrientationTask =
      [0, 1, 2, 3, 4, 5] ∧
    processTrace mDebug pages =
      pages.flatMap
        (fun p => [(p, 0), (p, 1), (p, 2), (p, 3), (p, 4), (p, 5)]) ∧
    (processTrace mDebug pages).length = 6 * pages.length := by
  refine ⟨rfl, rfl, ?_⟩
  induction pages with
  | nil => rfl
  | cons a t ih =>
    have h6 : ((execOrder
        (createCompositeTaskOpt true mDebug 5).fixOrientationTask).map
          (fun s => (a, s))).length = 6 := rfl
    simp only [processTrace, List.flatMap_cons, List.length_append,
      List.length_cons] at ih ⊢
    rw [h6] at *
    omega

/-- C8: after the relink pass rewrites the source paths of a settings
store's keys (with a relinker that does not merge distinct paths of
that store), every record that was present before is unchanged and
still retrievable under the correspondingly relinked PageId. -/
theorem c8_relink_preserves_settings {α : Type} (f : String → String)
    (s : List (PageId × α)) (k : PageId)
    (hinj : ∀ p₁ ∈ s.map Prod.fst, ∀ p₂ ∈ s.map Prod.fst,
      f p₁.imageId.filePath = f p₂.imageId.filePath →
        p₁.imageId.filePath = p₂.imageId.filePath)
    (hk : k ∈ s.map Prod.fst) :
    getSettings (performRelinking f s) (relinkPageId f k) =
      getSettings s k := by
  induction s with
  | nil => simp [performRelinking, getSettings]
  | cons e rest ih =>
    simp only [performRelinking, List.map_cons, getSettings]
    by_cases he : e.1 = k
    · subst he
      simp
    · have hne : relinkPageId f e.1 ≠ relinkPageId f k := by
        intro hcontra
        apply he
        have h1 : f e.1.imageId.filePath = f k.imageId.filePath :=
          congrArg (fun q => q.imageId.filePath) hcontra
        have h2 : e.1.imageId.page = k.imageId.page :=
          congrArg (fun q => q.imageId.page) hcontra
        have h3 : e.1.subPage = k.subPage :=
          congrArg (fun q => q.subPage) hcontra
        have hpath : e.1.imageId.filePath = k.imageId.filePath :=
          hinj e.1 (by simp) k hk h1
        have heta : e.1 =
            (⟨⟨e.1.imageId.filePath, e.1.imageId.page⟩, e.1.subPage⟩ :
              PageId) := rfl
        rw [heta, hpath, h2, h3]
      rw [if_neg hne, if_neg he]
      apply ih
      · intro p₁ hp₁ p₂ hp₂
        exact hinj p₁ (by simp [hp₁]) p₂ (by simp [hp₂])
      · rcases List.mem_map.mp hk with ⟨x, hx, hxk⟩
        rcases List.mem_cons.mp hx with hx1 | hx1
        · exact absurd (hx1 ▸ hxk) he
        · exact List.mem_map.mpr ⟨x, hx1, hxk⟩

/-- Witness for C8: a two-page store relinked into a new directory; the
first page's record is still found under the relinked key. -/
theorem c8_relink_preserves_settings_witness :
    getSettings
      (performRelinking
        (fun q => if q = "a.tif" then "/scans/a.tif"
          else if q = "b.tif" then "/scans/b.tif" else q)
        [(⟨⟨"a.tif", 0⟩, .whole⟩, (11 : Nat)),
          (⟨⟨"b.tif", 0⟩, .left⟩, 22)])
      (relinkPageId
        (fun q => if q = "a.tif" then "/scans/a.tif"
          else if q = "b.tif" then "/scans/b.tif" else q)
        ⟨⟨"a.tif", 0⟩, .whole⟩) =
    getSettings
      [(⟨⟨"a.tif", 0⟩, .whole⟩, (11 : Nat)),
        (⟨⟨"b.tif", 0⟩, .left⟩, 22)]
      ⟨⟨"a.tif", 0⟩, .whole⟩ :=
  c8_relink_preserves_settings
    (fun q => if q = "a.tif" then "/scans/a.tif"
      else if q = "b.tif" then "/scans/b.tif" else q)
    [(⟨⟨"a.tif", 0⟩, .whole⟩, (11 : Nat)),
      (⟨⟨"b.tif", 0⟩, .left⟩, 22)]
    ⟨⟨"a.tif", 0⟩, .whole⟩
    (by decide)
    (by decide)

/-- C9 counterexample: at lastStageIndex -1 the baseline
`createCompositeTask` fails fatally on its assertion while the
optimized one returns a composite wrapping a null task, so the two
implementations do not build equivalent chains for every
lastStageIndex. -/
theorem c9_equivalence_counterexample :
    createCompositeTaskBaseline true true (-1) =
      .error "assertion failed: fix_orientation_task" ∧
    createCompositeTaskOpt true true (-1) =
      { fixOrientationTask := UnitOfWork.nullTask } :=
  ⟨rfl, rfl⟩

/-- C9 amended: for every page and every lastStageIndex ≥ 0, the
baseline and optimized `createCompositeTask` build structurally
equivalent chains — the same stages wired in the same continuation
order (stages 0 through min(lastStageIndex,5)), rooted in a
LoadFileTask wrapping the fix-orientation task; for negative
lastStageIndex the baseline fails its assertion while the optimized
returns a chain with a null root. -/
theorem c9_structural_equivalence_amended (b₁ d₁ b₂ d₂ : Bool) (k : Int)
    (hk : 0 ≤ k) :
    ∃ t, createCompositeTaskBaseline b₁ d₁ k = .ok t ∧
      execOrder t.fixOrientationTask =
        execOrder (createCompositeTaskOpt b₂ d₂ k).fixOrientationTask ∧
      execOrder t.fixOrientationTask =
        List.range (min k.toNat 5 + 1) ∧
      (execOrder t.fixOrientationTask).head? = some 0 := by
  rcases lt_or_ge k 5 with h | h
  · interval_cases k <;> exact ⟨_, rfl, rfl, rfl, rfl⟩
  · rw [createCompositeTaskBaseline_ge5 _ _ _ h,
      createCompositeTaskOpt_ge5 _ _ _ h]
    have hmin : min k.toNat 5 = 5 := by omega
    rw [hmin]
    exact ⟨_, rfl, rfl, rfl, rfl⟩

/-- Witness for C9 amended at lastStageIndex 7 (beyond the last stage,
where both builders saturate at the full six-stage chain). -/
theorem c9_structural_equivalence_amended_witness :
    ∃ t, createCompositeTaskBaseline true true 7 = .ok t ∧
      execOrder t.fixOrientationTask =
        execOrder (createCompositeTaskOpt false false 7).fixOrientationTask ∧
      execOrder t.fixOrientationTask =
        List.range (min (7 : Int).toNat 5 + 1) ∧
      (execOrder t.fixOrientationTask).head? = some 0 :=
  c9_structural_equivalence_amended true true false false 7 (by decide)

/-- C10: the divisor `std::max(1, processed)` used by the optimized
`process` for the estimated-total, remaining and average-time
computations is at least one for every number of successfully processed
pages, including zero, so none of these computations divides by zero. -/
theorem c10_progress_divisor_positive (processed : Nat) (elapsed : Int)
    (total : Nat) :
    0 < progressDivisor processed ∧
    progressDivisor processed ≠ 0 ∧
    estimatedTotalTime elapsed total processed =
      (elapsed * total) / (progressDivisor processed : Int) ∧
    remainingTime elapsed total processed =
      estimatedTotalTime elapsed total processed - elapsed ∧
    (1 : Int) ≤ (progressDivisor processed : Int) := by
  have h1 : 1 ≤ max 1 processed := Nat.le_max_left 1 processed
  refine ⟨?_, ?_, rfl, rfl, ?_⟩
  · show 0 < max 1 processed
    omega
  · show max 1 processed ≠ 0
    omega
  · show (1 : Int) ≤ ((max 1 processed : Nat) : Int)
    omega

end ScanTailor
